import Mathlib

/-
Shallow embedding of the reconciliation core of the repository
(src/reconciliation.py, src/data_models.py, src/config.py).

Python machine floats are modelled as rationals, fallible operations as
Option, and dynamically typed values reaching the comparators as the
inductive type Value below.  Strings are processed as lists of characters
so that every definition is executable and kernel reducible.
-/

/-- A dynamically typed value reaching the comparators: either a number
(modelled as a rational) or a string. -/
inductive Value where
  | vNum (q : ℚ)
  | vStr (s : String)
deriving DecidableEq

/-- Models Python str.strip() (whitespace trimming on both ends). -/
def trimChars (cs : List Char) : List Char :=
  ((cs.dropWhile Char.isWhitespace).reverse.dropWhile Char.isWhitespace).reverse

/-- Value of a list of decimal digit characters. -/
def digitsVal (cs : List Char) : Nat :=
  cs.foldl (fun a c => a * 10 + (c.toNat - 48)) 0

/-- Nonempty and all decimal digits. -/
def isDigits (cs : List Char) : Bool :=
  !cs.isEmpty && cs.all Char.isDigit

/-- Split a character list on a separator character (Python str.split
semantics: the empty list yields one empty chunk). -/
def splitOnChar (sep : Char) : List Char → List (List Char)
  | [] => [[]]
  | c :: cs =>
    let r := splitOnChar sep cs
    if c = sep then [] :: r
    else
      match r with
      | [] => [[c]]
      | h :: t => (c :: h) :: t

/-- Models Python str() on comparator values.  Numbers are printed with a
trailing ".0" when integral and as num/den otherwise; Python prints
shortest round-trip decimals instead, but no claim settled in this file
depends on the rendering chosen for a numeric value. -/
def pyStr : Value → String
  | .vStr s => s
  | .vNum q =>
    if q.den = 1 then toString q.num ++ ".0"
    else toString q.num ++ "/" ++ toString q.den

/-- Mantissa of a Python float literal: digits, digits.digits, .digits or
digits. (at least one digit overall). -/
def parseMantissa (cs : List Char) : Option ℚ :=
  match splitOnChar '.' cs with
  | [ip] => if isDigits ip then some ((digitsVal ip : ℚ)) else none
  | [ip, fp] =>
    if ip.all Char.isDigit && fp.all Char.isDigit && !(ip.isEmpty && fp.isEmpty) then
      some ((digitsVal ip : ℚ) + (digitsVal fp : ℚ) / (10 : ℚ) ^ fp.length)
    else none
  | _ => none

/-- Exponent part of a Python float literal: optional sign then digits. -/
def parseExpPart (cs : List Char) : Option ℤ :=
  match cs with
  | '+' :: rest => if isDigits rest then some ((digitsVal rest : ℤ)) else none
  | '-' :: rest => if isDigits rest then some (-(digitsVal rest : ℤ)) else none
  | rest => if isDigits rest then some ((digitsVal rest : ℤ)) else none

/-- Unsigned Python float literal: mantissa with an optional e/E exponent. -/
def parsePyFloatChars (cs : List Char) : Option ℚ :=
  let mant := cs.takeWhile (fun c => c != 'e' && c != 'E')
  let rest := cs.dropWhile (fun c => c != 'e' && c != 'E')
  match rest with
  | [] => parseMantissa mant
  | _ :: expCs =>
    match parseMantissa mant, parseExpPart expCs with
    | some m, some e => some (m * (10 : ℚ) ^ e)
    | _, _ => none

/-- Signed Python float literal. -/
def parseSigned (cs : List Char) : Option ℚ :=
  match cs with
  | '+' :: rest => parsePyFloatChars rest
  | '-' :: rest => (parsePyFloatChars rest).map (fun q => -q)
  | _ => parsePyFloatChars cs

/-- Models Python float() on comparator values.  A numeric value converts to
itself; a string is stripped and parsed as a decimal literal with optional
sign, fraction and exponent (the inf/nan and underscore-grouping forms that
Python also accepts are not modelled; no claim settled here uses them). -/
def pyFloat : Value → Option ℚ
  | .vNum q => some q
  | .vStr s => parseSigned (trimChars s.data)

/-
Date handling: models SimpleReconciliationEngine._parse_date.  The source
cleans the string with re.sub keeping only digits, minus, slash and dot,
then tries six strptime patterns in a fixed order.  CPython strptime
compiles %Y to exactly four digits, %m to one or two digits valued 1..12,
%d to one or two digits valued 1..31, requires the whole string to match,
and datetime construction then validates the day against the month (and
the year against MINYEAR = 1).
-/

/-- Characters kept by the cleaning regex of _parse_date. -/
def cleanDateChars (s : String) : List Char :=
  (trimChars s.data).filter (fun c => c.isDigit || c == '-' || c == '/' || c == '.')

/-- %Y: exactly four digits. -/
def yearComp (cs : List Char) : Option Nat :=
  if cs.length == 4 && cs.all Char.isDigit then some (digitsVal cs) else none

/-- %m: one or two digits valued 1..12. -/
def monthComp (cs : List Char) : Option Nat :=
  if (cs.length == 1 || cs.length == 2) && cs.all Char.isDigit then
    if 1 ≤ digitsVal cs ∧ digitsVal cs ≤ 12 then some (digitsVal cs) else none
  else none

/-- %d: one or two digits valued 1..31. -/
def dayComp (cs : List Char) : Option Nat :=
  if (cs.length == 1 || cs.length == 2) && cs.all Char.isDigit then
    if 1 ≤ digitsVal cs ∧ digitsVal cs ≤ 31 then some (digitsVal cs) else none
  else none

def isLeapYear (y : Nat) : Bool :=
  (y % 4 == 0 && y % 100 != 0) || y % 400 == 0

def daysInMonth (y m : Nat) : Nat :=
  if m = 2 then (if isLeapYear y then 29 else 28)
  else if m = 4 ∨ m = 6 ∨ m = 9 ∨ m = 11 then 30
  else 31

/-- Validity enforced by datetime construction after strptime. -/
def dateValid (y m d : Nat) : Bool :=
  decide (1 ≤ y) && decide (1 ≤ d) && decide (d ≤ daysInMonth y m)

/-- Days since 0000-03-01 in the proleptic Gregorian calendar (the standard
days-from-civil computation); differences of these ordinals equal the .days
of the difference of two midnight datetimes. -/
def toOrdinal (y m d : Nat) : Nat :=
  let yAdj := if m ≤ 2 then y - 1 else y
  let era := yAdj / 400
  let yoe := yAdj % 400
  let mp := if 2 < m then m - 3 else m + 9
  let doy := (153 * mp + 2) / 5 + (d - 1)
  let doe := yoe * 365 + yoe / 4 - yoe / 100 + doy
  era * 146097 + doe

def ordOf (d : Nat × Nat × Nat) : Nat := toOrdinal d.1 d.2.1 d.2.2

/-- Absolute day difference of two parsed dates. -/
def dayDiff (a b : Nat × Nat × Nat) : Nat :=
  Int.natAbs ((ordOf a : ℤ) - (ordOf b : ℤ))

/-- Order of the year, month and day components within a pattern. -/
inductive DateOrder where
  | ymd
  | dmy
  | mdy
deriving DecidableEq

/-- One strptime pattern: split on the separator, check the three
components, validate the resulting date. -/
def tryDateFormat (sep : Char) (ord : DateOrder) (cs : List Char) :
    Option (Nat × Nat × Nat) :=
  match splitOnChar sep cs with
  | [a, b, c] =>
    let comps :=
      match ord with
      | .ymd => (yearComp a, monthComp b, dayComp c)
      | .dmy => (yearComp c, monthComp b, dayComp a)
      | .mdy => (yearComp c, monthComp a, dayComp b)
    match comps with
    | (some y, some m, some d) => if dateValid y m d then some (y, m, d) else none
    | _ => none
  | _ => none

/-- The six patterns of _parse_date, in source order. -/
def date_formats : List (Char × DateOrder) :=
  [('-', .ymd), ('-', .dmy), ('-', .mdy), ('/', .ymd), ('/', .dmy), ('/', .mdy)]

/-- Models _parse_date: clean, then first pattern that parses wins. -/
def parse_date (s : String) : Option (Nat × Nat × Nat) :=
  let cs := cleanDateChars s
  date_formats.findSome? (fun p => tryDateFormat p.1 p.2 cs)

namespace config

/-- src/config.py NUMERIC_TOLERANCE = 0.001 (0.1 percent). -/
def NUMERIC_TOLERANCE : ℚ := 1 / 1000

/-- src/config.py SIMILARITY_THRESHOLD = 0.85. -/
def SIMILARITY_THRESHOLD : ℚ := 85 / 100

/-- src/config.py DATE_TOLERANCE_DAYS = 0. -/
def DATE_TOLERANCE_DAYS : Nat := 0

end config

/-- src/data_models.py TermSheetData: all attributes optional (absence is
distinct from zero or the empty string).  Float attributes are modelled as
rationals. -/
structure TermSheetData where
  isin : Option String := none
  issuer : Option String := none
  issue_amount : Option ℚ := none
  face_value : Option ℚ := none
  notional_amount : Option ℚ := none
  coupon_rate : Option ℚ := none
  currency : Option String := none
  issue_date : Option String := none
  maturity_date : Option String := none
  settlement_date : Option String := none
  payment_frequency : Option String := none
  day_count_convention : Option String := none
  security_type : Option String := none
  seniority : Option String := none
  tenor : Option String := none
deriving DecidableEq

/-- src/data_models.py BookingRecord.  A pydantic model exposes exactly its
declared attributes: unknown constructor keys are dropped, so every
BookingRecord value has these ten attributes and no others. -/
structure BookingRecord where
  TradeID : Option ℤ := none
  ISIN : Option String := none
  Issuer : Option String := none
  Notional : Option ℚ := none
  Coupon : Option ℚ := none
  Currency : Option String := none
  Maturity : Option String := none
  SettlementDate : Option String := none
  IssueDate : Option String := none
  IssueAmount : Option ℚ := none
deriving DecidableEq

/-- src/data_models.py FieldComparison.  The source attribute named match is
rendered here as isMatch because match is a Lean keyword. -/
structure FieldComparison where
  field_name : String
  term_sheet_value : Option Value := none
  booking_value : Option Value := none
  isMatch : Bool
  similarity : ℚ
  notes : Option String := none
deriving DecidableEq

/-- src/data_models.py ReconciliationResult. -/
structure ReconciliationResult where
  trade_id : Option ℤ := none
  overall_match : Bool
  match_percentage : ℚ
  comparisons : List FieldComparison
  summary : String
deriving DecidableEq

/-- Floor of a rational (used by the fixed-point formatter below). -/
def ratFloor (q : ℚ) : ℤ := Int.fdiv q.num q.den

/-- Models Python format(x, ".Nf"): fixed-point rendering with round half to
even, applied to the exact rational value. -/
def fmtFixed (prec : Nat) (q : ℚ) : String :=
  let scaled : ℚ := q * (10 : ℚ) ^ prec
  let fl : ℤ := ratFloor scaled
  let r : ℚ := scaled - (fl : ℚ)
  let n : ℤ :=
    if r < 1 / 2 then fl
    else if (1 : ℚ) / 2 < r then fl + 1
    else if fl % 2 = 0 then fl else fl + 1
  let m : Nat := n.natAbs
  let ip := m / 10 ^ prec
  let fp := m % 10 ^ prec
  let fpStr := toString fp
  let pad := String.mk (List.replicate (prec - fpStr.length) '0')
  (if n < 0 then "-" else "") ++ toString ip ++
    (if prec = 0 then "" else "." ++ pad ++ fpStr)

/-- Models SimpleReconciliationEngine._compare_exact: stringify, strip,
compare byte for byte. -/
def compare_exact (field_name : String) (ts_value booking_value : Value) :
    FieldComparison :=
  let ts_str := trimChars (pyStr ts_value).data
  let booking_str := trimChars (pyStr booking_value).data
  let m : Bool := ts_str == booking_str
  { field_name := field_name
    term_sheet_value := some ts_value
    booking_value := some booking_value
    isMatch := m
    similarity := if m then 1.0 else 0.0
    notes := if m then none else some ("Exact values don" ++ "\x27" ++ "t match") }

/-- Models SimpleReconciliationEngine._compare_numeric: parse both values as
numbers; relative difference against the booking value when it is nonzero,
absolute difference otherwise; match iff the difference is within
NUMERIC_TOLERANCE; on a parse failure fall back to _compare_exact. -/
def compare_numeric (field_name : String) (ts_value booking_value : Value) :
    FieldComparison :=
  match pyFloat ts_value, pyFloat booking_value with
  | some ts_num, some booking_num =>
    let diff : ℚ :=
      if booking_num ≠ 0 then |ts_num - booking_num| / |booking_num|
      else |ts_num - booking_num|
    let m : Bool := decide (diff ≤ config.NUMERIC_TOLERANCE)
    { field_name := field_name
      term_sheet_value := some ts_value
      booking_value := some booking_value
      isMatch := m
      similarity := max 0.0 (1.0 - diff)
      notes := if m then none else some ("Difference: " ++ fmtFixed 4 |ts_num - booking_num|) }
  | _, _ => compare_exact field_name ts_value booking_value

/-- Models SimpleReconciliationEngine._compare_date: parse both values as
dates; match iff the absolute day difference is within DATE_TOLERANCE_DAYS;
similarity decays linearly over 365 days; on a parse failure fall back to
_compare_exact. -/
def compare_date (field_name : String) (ts_value booking_value : Value) :
    FieldComparison :=
  match parse_date (pyStr ts_value), parse_date (pyStr booking_value) with
  | some ts_date, some booking_date =>
    let diff_days := dayDiff ts_date booking_date
    let m : Bool := decide (diff_days ≤ config.DATE_TOLERANCE_DAYS)
    { field_name := field_name
      term_sheet_value := some ts_value
      booking_value := some booking_value
      isMatch := m
      similarity := max 0.0 (1.0 - (diff_days : ℚ) / 365)
      notes :=
        if m then none
        else some ("Date difference: " ++ toString diff_days ++ " days (" ++
          pyStr ts_value ++ " vs " ++ pyStr booking_value ++ ")") }
  | _, _ => compare_exact field_name ts_value booking_value

/-- Whether the first character list is a prefix of the second. -/
def prefixCheck : List Char → List Char → Bool
  | [], _ => true
  | _ :: _, [] => false
  | a :: as, b :: bs => a == b && prefixCheck as bs

/-- Whether the first character list occurs contiguously inside the second:
models the Python substring operator used by _compare_text. -/
def infixCheck (a : List Char) : List Char → Bool
  | [] => a.isEmpty
  | b :: bs => prefixCheck a (b :: bs) || infixCheck a bs

/-- The normalization applied by _compare_text to both sides: stringify,
strip, lowercase. -/
def norm_text (v : Value) : List Char :=
  (trimChars (pyStr v).data).map Char.toLower

/-- Models SimpleReconciliationEngine._compare_text: stringify, strip and
lowercase both sides; equal means match with similarity 1.0; otherwise a
substring either way means match with similarity 0.9; otherwise no match. -/
def compare_text (field_name : String) (ts_value booking_value : Value) :
    FieldComparison :=
  let ts_str := norm_text ts_value
  let booking_str := norm_text booking_value
  if ts_str == booking_str then
    { field_name := field_name
      term_sheet_value := some ts_value
      booking_value := some booking_value
      isMatch := true
      similarity := 1.0
      notes := none }
  else if infixCheck ts_str booking_str || infixCheck booking_str ts_str then
    { field_name := field_name
      term_sheet_value := some ts_value
      booking_value := some booking_value
      isMatch := true
      similarity := 0.9
      notes := some "Partial text match" }
  else
    { field_name := field_name
      term_sheet_value := some ts_value
      booking_value := some booking_value
      isMatch := false
      similarity := 0.0
      notes := some ("Text doesn" ++ "\x27" ++ "t match") }

/-- Models SimpleReconciliationEngine._compare_field: the shared None
handling followed by dispatch on the semantic type of the canonical field. -/
def compare_field (field_name : String) (ts_value booking_value : Option Value) :
    FieldComparison :=
  match ts_value, booking_value with
  | none, none =>
    { field_name := field_name
      term_sheet_value := none
      booking_value := none
      isMatch := true
      similarity := 1.0
      notes := some "Both values are None" }
  | some a, some b =>
    if ["coupon_rate", "face_value", "issue_amount"].contains field_name then
      compare_numeric field_name a b
    else if ["maturity_date", "issue_date"].contains field_name then
      compare_date field_name a b
    else if ["isin", "currency"].contains field_name then
      compare_exact field_name a b
    else
      compare_text field_name a b
  | a, b =>
    { field_name := field_name
      term_sheet_value := a
      booking_value := b
      isMatch := false
      similarity := 0.0
      notes := some "One value is missing" }

/-- The attribute names returned by BookingRecord.model_dump().keys(): the
declared pydantic fields, whether or not their values are None. -/
def booking_field_names : List String :=
  ["TradeID", "ISIN", "Issuer", "Notional", "Coupon", "Currency", "Maturity",
   "SettlementDate", "IssueDate", "IssueAmount"]

/-- Models getattr(term_sheet, f, None) for the canonical field names. -/
def TermSheetData.getField (ts : TermSheetData) : String → Option Value
  | "isin" => ts.isin.map Value.vStr
  | "issuer" => ts.issuer.map Value.vStr
  | "issue_amount" => ts.issue_amount.map Value.vNum
  | "face_value" => ts.face_value.map Value.vNum
  | "notional_amount" => ts.notional_amount.map Value.vNum
  | "coupon_rate" => ts.coupon_rate.map Value.vNum
  | "currency" => ts.currency.map Value.vStr
  | "issue_date" => ts.issue_date.map Value.vStr
  | "maturity_date" => ts.maturity_date.map Value.vStr
  | "settlement_date" => ts.settlement_date.map Value.vStr
  | "payment_frequency" => ts.payment_frequency.map Value.vStr
  | "day_count_convention" => ts.day_count_convention.map Value.vStr
  | "security_type" => ts.security_type.map Value.vStr
  | "seniority" => ts.seniority.map Value.vStr
  | "tenor" => ts.tenor.map Value.vStr
  | _ => none

/-- Models getattr(booking_record, f, None) for the declared attributes. -/
def BookingRecord.getAttr (br : BookingRecord) : String → Option Value
  | "TradeID" => br.TradeID.map (fun n => Value.vNum (n : ℚ))
  | "ISIN" => br.ISIN.map Value.vStr
  | "Issuer" => br.Issuer.map Value.vStr
  | "Notional" => br.Notional.map Value.vNum
  | "Coupon" => br.Coupon.map Value.vNum
  | "Currency" => br.Currency.map Value.vStr
  | "Maturity" => br.Maturity.map Value.vStr
  | "SettlementDate" => br.SettlementDate.map Value.vStr
  | "IssueDate" => br.IssueDate.map Value.vStr
  | "IssueAmount" => br.IssueAmount.map Value.vNum
  | _ => none

/-- The hard-coded field_name_mappings dict of _reconcile_single_record, in
insertion order (canonical term sheet field to its booking synonym list). -/
def field_name_mappings : List (String × List String) :=
  [("isin", ["ISIN", "isin", "Isin"]),
   ("issuer", ["Issuer", "issuer", "IssuerName", "IssuingEntity"]),
   ("issue_amount", ["IssueAmount", "IssueSize", "TotalAmount", "issue_amount"]),
   ("face_value", ["NominalAmountPerBond", "FaceValue", "Denomination", "ParValue", "face_value"]),
   ("notional_amount", ["Notional", "NotionalAmount", "TotalNotional", "notional_amount"]),
   ("coupon_rate", ["Coupon", "CouponRate", "InterestRate", "Rate", "coupon_rate"]),
   ("currency", ["Currency", "currency", "Ccy"]),
   ("issue_date", ["IssueDate", "issue_date", "IssuanceDate"]),
   ("maturity_date", ["Maturity", "MaturityDate", "maturity_date"]),
   ("settlement_date", ["SettlementDate", "settlement_date", "SettleDate"]),
   ("payment_frequency", ["InterestPaymentFrequency", "PaymentFrequency", "Frequency", "payment_frequency"]),
   ("day_count_convention", ["DayCountFraction", "DayCount", "DayCountConvention", "day_count_convention"])]

/-- The inner loop of _reconcile_single_record over possible booking fields:
the first synonym present among the record attribute names, or none. -/
def resolve_booking_field (possible_booking_fields : List String) : Option String :=
  possible_booking_fields.find? (fun f => booking_field_names.contains f)

/-- One iteration of the field loop of _reconcile_single_record: the
comparison appended for this canonical field, or none when the field is
skipped (term sheet value absent, no synonym resolves, or the resolved
booking value is None). -/
def field_outcome (ts : TermSheetData) (br : BookingRecord)
    (p : String × List String) : Option FieldComparison :=
  match ts.getField p.1 with
  | none => none
  | some ts_value =>
    match resolve_booking_field p.2 with
    | none => none
    | some booking_field =>
      match br.getAttr booking_field with
      | none => none
      | some booking_value => some (compare_field p.1 (some ts_value) (some booking_value))

/-- Python str() of an optional trade id, as interpolated into the summary. -/
def trade_id_str : Option ℤ → String
  | none => "None"
  | some n => toString n

/-- Models _reconcile_single_record.  The source loop appends exactly the
comparisons produced by field_outcome in mapping order; its counter total
equals the number of appended comparisons and its counter matches (a Lean
keyword, rendered here as matched) counts the matching ones. -/
def reconcile_single_record (ts : TermSheetData) (br : BookingRecord) :
    ReconciliationResult :=
  let comparisons := field_name_mappings.filterMap (field_outcome ts br)
  let total := comparisons.length
  let matched := (comparisons.filter (fun c => c.isMatch)).length
  let match_percentage : ℚ := if 0 < total then (matched : ℚ) / (total : ℚ) * 100 else 0.0
  let perfect_match : Bool := decide (match_percentage = 100.0)
  { trade_id := br.TradeID
    overall_match := perfect_match
    match_percentage := match_percentage
    comparisons := comparisons
    summary := "Trade " ++ trade_id_str br.TradeID ++ ": " ++ toString matched ++ "/" ++
      toString total ++ " fields match (" ++ fmtFixed 1 match_percentage ++ "%)" }

/-- Models SimpleReconciliationEngine.__init__: the constructor stores the
supplied custom field mappings (or None for defaults) in self.field_mappings. -/
structure SimpleReconciliationEngine where
  field_mappings : Option (List (String × List String)) := none

/-- Models _filter_relevant_records.  Python tests the truthiness of
term_sheet.isin, so both None and the empty string take the first branch. -/
def filter_relevant_records (term_sheet : TermSheetData)
    (booking_records : List BookingRecord) : List BookingRecord :=
  match term_sheet.isin with
  | none => booking_records
  | some i =>
    if i = "" then booking_records
    else
      let relevant := booking_records.filter (fun r => r.ISIN == some i)
      if relevant.isEmpty then booking_records else relevant

/-- Models SimpleReconciliationEngine.reconcile.  A pydantic term sheet
object is always truthy, so the term_sheet guard fires exactly when the
argument is None; the engine state is never consulted by this method. -/
def SimpleReconciliationEngine.reconcile (_engine : SimpleReconciliationEngine)
    (term_sheet : Option TermSheetData) (booking_records : List BookingRecord) :
    List ReconciliationResult :=
  match term_sheet with
  | none => []
  | some ts =>
    if booking_records.isEmpty then []
    else (filter_relevant_records ts booking_records).map (reconcile_single_record ts)

/-
Concrete inputs used by witnesses and counterexamples below.
-/

/-- Term sheet of the perfect-match scenario. -/
def ts_c1 : TermSheetData :=
  { isin := some "TEST123", issuer := some "Test Company",
    coupon_rate := some 5.0, currency := some "USD" }

/-- Matching booking record for ts_c1. -/
def br_c1 : BookingRecord :=
  { TradeID := some 1, ISIN := some "TEST123", Issuer := some "Test Company",
    Coupon := some 5.0, Currency := some "USD" }

/-- Term sheet exposing only an isin. -/
def ts_c3 : TermSheetData := { isin := some "US123" }

/-- Booking record with the same isin. -/
def br_c3 : BookingRecord := { TradeID := some 1, ISIN := some "US123" }

/-- Term sheet with an isin and a present face value. -/
def ts_c4 : TermSheetData := { isin := some "US123", face_value := some 1000 }

/-- Booking record built from data that carried NominalAmountPerBond = 1000:
pydantic drops the unknown key, so the attribute does not exist on the
record. -/
def br_c4 : BookingRecord := { TradeID := some 7, ISIN := some "US123" }

/-- Term sheet whose identifier is present but equal to the empty string. -/
def ts_c5 : TermSheetData := { isin := some "" }

/-- Booking record with a different identifier. -/
def brA_c5 : BookingRecord := { TradeID := some 1, ISIN := some "US1" }

/-- Booking record whose identifier is the empty string. -/
def brB_c5 : BookingRecord := { TradeID := some 2, ISIN := some "" }

/-- Term sheet with a stale identifier that matches no booking record. -/
def ts_c5w : TermSheetData := { isin := some "US999" }

/-- Booking record whose identifier differs from ts_c5w. -/
def br_c5w : BookingRecord := { TradeID := some 3, ISIN := some "US1" }

/-- Term sheet whose coupon rate is present but zero. -/
def ts_c6 : TermSheetData := { coupon_rate := some 0 }

/-- Booking record with a present coupon. -/
def br_c6 : BookingRecord := { TradeID := some 4, Coupon := some 5.0 }

section

attribute [local semireducible] Rat.add Rat.mul Rat.inv Rat.sub Rat.ofScientific

/-- Every comparator labels its result with the field name it was given. -/
theorem compare_exact_name (f : String) (a b : Value) :
    (compare_exact f a b).field_name = f := rfl

theorem compare_numeric_name (f : String) (a b : Value) :
    (compare_numeric f a b).field_name = f := by
  unfold compare_numeric
  cases pyFloat a <;> cases pyFloat b <;> rfl

theorem compare_date_name (f : String) (a b : Value) :
    (compare_date f a b).field_name = f := by
  unfold compare_date
  cases parse_date (pyStr a) <;> cases parse_date (pyStr b) <;> rfl

theorem compare_text_name (f : String) (a b : Value) :
    (compare_text f a b).field_name = f := by
  unfold compare_text
  dsimp only
  split
  · rfl
  · split <;> rfl

theorem compare_field_name (f : String) (a b : Option Value) :
    (compare_field f a b).field_name = f := by
  unfold compare_field
  cases a <;> cases b
  · rfl
  · rfl
  · rfl
  · dsimp only
    split
    · exact compare_numeric_name f _ _
    · split
      · exact compare_date_name f _ _
      · split
        · exact compare_exact_name f _ _
        · exact compare_text_name f _ _

/-- A comparison produced for a canonical field carries that field name. -/
theorem field_outcome_name (ts : TermSheetData) (br : BookingRecord)
    (p : String × List String) (c : FieldComparison)
    (h : field_outcome ts br p = some c) : c.field_name = p.1 := by
  unfold field_outcome at h
  split at h
  · cases h
  · split at h
    · cases h
    · split at h
      · cases h
      · cases h
        exact compare_field_name p.1 _ _

/-- A canonical field whose synonym list resolves to no attribute is
skipped whatever the records hold. -/
theorem field_outcome_unresolved (ts : TermSheetData) (br : BookingRecord)
    (k : String) (syns : List String)
    (hres : resolve_booking_field syns = none) :
    field_outcome ts br (k, syns) = none := by
  unfold field_outcome
  cases ts.getField k
  · rfl
  · dsimp only
    rw [hres]

/-- Every comparison of a single-record reconciliation stems from an entry
of the field mapping. -/
theorem comparisons_from_mapping (ts : TermSheetData) (br : BookingRecord)
    (c : FieldComparison) (hc : c ∈ (reconcile_single_record ts br).comparisons) :
    ∃ p ∈ field_name_mappings, field_outcome ts br p = some c ∧ c.field_name = p.1 := by
  have hc' : c ∈ field_name_mappings.filterMap (field_outcome ts br) := hc
  obtain ⟨p, hp, hout⟩ := List.mem_filterMap.mp hc'
  exact ⟨p, hp, hout, field_outcome_name ts br p c hout⟩

/-- Every result of reconcile is the single-record reconciliation of the
supplied term sheet against some booking record. -/
theorem mem_reconcile (e : SimpleReconciliationEngine)
    (ts : Option TermSheetData) (brs : List BookingRecord)
    (r : ReconciliationResult) (h : r ∈ e.reconcile ts brs) :
    ∃ t b, ts = some t ∧ r = reconcile_single_record t b := by
  unfold SimpleReconciliationEngine.reconcile at h
  cases ts with
  | none => cases h
  | some t =>
    dsimp only at h
    split at h
    · cases h
    · obtain ⟨b, _, hr⟩ := List.mem_map.mp h
      exact ⟨t, b, rfl, hr.symm⟩

/-- The length of a filterMap counts the inputs mapped to some value. -/
theorem length_filterMap_eq_countP {α β : Type} (f : α → Option β) (l : List α) :
    (l.filterMap f).length = l.countP (fun a => (f a).isSome) := by
  induction l with
  | nil => rfl
  | cons a l ih => cases h : f a <;> simp [List.filterMap_cons, h, List.countP_cons, ih]

/-- A record filter falling back to the full collection never empties a
nonempty collection. -/
theorem filter_relevant_ne_nil (t : TermSheetData) (brs : List BookingRecord)
    (h : brs ≠ []) : filter_relevant_records t brs ≠ [] := by
  unfold filter_relevant_records
  cases t.isin with
  | none => exact h
  | some i =>
    dsimp only
    split
    · exact h
    · split
      · exact h
      · intro hnil
        simp_all

/-- C1: for every ReconciliationResult produced by reconcile, overall_match
is true if and only if match_percentage equals exactly 100. -/
theorem c1_overall_match_iff_pct100 (e : SimpleReconciliationEngine)
    (ts : Option TermSheetData) (brs : List BookingRecord)
    (r : ReconciliationResult) (h : r ∈ e.reconcile ts brs) :
    r.overall_match = true ↔ r.match_percentage = 100 := by
  obtain ⟨t, b, -, hr⟩ := mem_reconcile e ts brs r h
  subst hr
  unfold reconcile_single_record
  dsimp only
  rw [decide_eq_true_iff]
  have h100 : (100.0 : ℚ) = 100 := by norm_num
  rw [h100]

/-- C1 witness: the perfect-match run satisfies the equivalence. -/
theorem c1_witness :
    ((reconcile_single_record ts_c1 br_c1).overall_match = true ↔
      (reconcile_single_record ts_c1 br_c1).match_percentage = 100) :=
  c1_overall_match_iff_pct100 ⟨none⟩ (some ts_c1) [br_c1]
    (reconcile_single_record ts_c1 br_c1)
    (by rw [show SimpleReconciliationEngine.reconcile ⟨none⟩ (some ts_c1) [br_c1] =
          [reconcile_single_record ts_c1 br_c1] from rfl]
        exact List.mem_singleton_self _)

/-- C2: for the numeric canonical fields (coupon_rate, face_value,
issue_amount), when both values parse as numbers the comparator matches
exactly when the relative difference against the booking value (absolute
difference when the booking value is zero) is within NUMERIC_TOLERANCE,
with similarity max 0 (1 - difference); when either value fails to parse it
falls back to the exact-string comparator. -/
theorem c2_numeric_comparator (f : String)
    (hf : f ∈ ["coupon_rate", "face_value", "issue_amount"]) (a b : Value) :
    (∀ qa qb, pyFloat a = some qa → pyFloat b = some qb →
      (((compare_field f (some a) (some b)).isMatch = true ↔
        (if qb = 0 then |qa - qb| else |qa - qb| / |qb|) ≤ config.NUMERIC_TOLERANCE) ∧
      (compare_field f (some a) (some b)).similarity =
        max 0 (1 - (if qb = 0 then |qa - qb| else |qa - qb| / |qb|)))) ∧
    ((pyFloat a = none ∨ pyFloat b = none) →
      compare_field f (some a) (some b) = compare_exact f a b) := by
  have hdisp : compare_field f (some a) (some b) = compare_numeric f a b := by
    fin_cases hf <;> rfl
  rw [hdisp]
  constructor
  · intro qa qb ha hb
    unfold compare_numeric
    rw [ha, hb]
    dsimp only
    have hite : (if qb ≠ 0 then |qa - qb| / |qb| else |qa - qb|) =
        (if qb = 0 then |qa - qb| else |qa - qb| / |qb|) := by
      by_cases hq : qb = 0 <;> simp [hq]
    rw [hite]
    constructor
    · rw [decide_eq_true_iff]
    · norm_num
  · intro hn
    unfold compare_numeric
    rcases hn with h | h
    · rw [h]
    · rw [h]
      cases pyFloat a <;> rfl

/-- C2 witness: a coupon drift of 5.001 against 5.0 lies within tolerance,
and a non-numeric string falls back to the exact comparator. -/
theorem c2_witness :
    (compare_field "coupon_rate" (some (Value.vNum 5.001)) (some (Value.vNum 5.0))).isMatch = true ∧
    compare_field "coupon_rate" (some (Value.vStr "abc")) (some (Value.vNum 5.0)) =
      compare_exact "coupon_rate" (Value.vStr "abc") (Value.vNum 5.0) := by
  constructor
  · have h := ((c2_numeric_comparator "coupon_rate" (by decide) (Value.vNum 5.001)
      (Value.vNum 5.0)).1 5.001 5.0 rfl rfl).1
    rw [h]
    decide
  · exact (c2_numeric_comparator "coupon_rate" (by decide) (Value.vStr "abc")
      (Value.vNum 5.0)).2 (Or.inl rfl)

/-- C3: the mapping stored by the constructor does not govern field
resolution: reconcile is insensitive to the stored field_mappings, and an
engine built with an empty mapping still resolves and compares isin through
the hard-coded synonym table of _reconcile_single_record. -/
theorem c3_supplied_mappings_ignored :
    (∀ (m₁ m₂ : Option (List (String × List String)))
       (ts : Option TermSheetData) (brs : List BookingRecord),
      SimpleReconciliationEngine.reconcile ⟨m₁⟩ ts brs =
        SimpleReconciliationEngine.reconcile ⟨m₂⟩ ts brs) ∧
    (SimpleReconciliationEngine.reconcile ⟨some []⟩ (some ts_c3) [br_c3]).map
      (fun r => r.comparisons.map (fun c => c.field_name)) = [["isin"]] := by
  refine ⟨fun m₁ m₂ ts brs => rfl, ?_⟩
  decide

/-- C4: contrary to the claim, the face_value field can never produce a
FieldComparison: no synonym in its list is a declared BookingRecord
attribute, so the field is always skipped; on the concrete failing input
(term sheet with face_value present, booking record built from data whose
NominalAmountPerBond key pydantic dropped) only isin is compared. -/
theorem c4_face_value_always_skipped :
    (∀ (ts : TermSheetData) (br : BookingRecord),
      (reconcile_single_record ts br).comparisons.all
        (fun c => !(c.field_name == "face_value")) = true) ∧
    ts_c4.face_value = some 1000 ∧
    (reconcile_single_record ts_c4 br_c4).comparisons.map (fun c => c.field_name) =
      ["isin"] := by
  refine ⟨?_, rfl, by decide⟩
  intro ts br
  rw [List.all_eq_true]
  intro c hc
  obtain ⟨p, hp, hout, hname⟩ := comparisons_from_mapping ts br c hc
  simp only [field_name_mappings, List.mem_cons, List.not_mem_nil, or_false] at hp
  rcases hp with h|h|h|h|h|h|h|h|h|h|h|h <;> subst h <;> try (rw [hname]; rfl)
  rw [field_outcome_unresolved ts br "face_value"
    ["NominalAmountPerBond", "FaceValue", "Denomination", "ParValue", "face_value"] rfl] at hout
  exact Option.noConfusion hout

/-- C5 counterexample: with the identifier present but equal to the empty
string, and a record whose identifier is that empty string, the exact
equality subsequence is nonempty, yet the matcher returns the full
collection instead of that subsequence, refuting the claim as stated. -/
theorem c5_counterexample :
    ts_c5.isin = some "" ∧
    [brA_c5, brB_c5].filter (fun r => r.ISIN == some "") = [brB_c5] ∧
    filter_relevant_records ts_c5 [brA_c5, brB_c5] = [brA_c5, brB_c5] ∧
    filter_relevant_records ts_c5 [brA_c5, brB_c5] ≠ [brB_c5] := by
  refine ⟨rfl, rfl, rfl, ?_⟩
  decide

/-- C5 amended: the record matcher returns the full collection when the
identifier is absent or empty; for a present nonempty identifier it returns
the exact-equality subsequence when that is nonempty and otherwise falls
back to the full collection; on a nonempty booking collection the matcher
output is never empty and reconcile produces one result per returned
record. -/
theorem c5_amended_matcher_spec (ts : TermSheetData) (brs : List BookingRecord)
    (h : brs ≠ []) :
    ((ts.isin = none ∨ ts.isin = some "") → filter_relevant_records ts brs = brs) ∧
    (∀ i, ts.isin = some i → i ≠ "" →
      ((brs.filter (fun r => r.ISIN == some i)) ≠ [] →
        filter_relevant_records ts brs = brs.filter (fun r => r.ISIN == some i)) ∧
      ((brs.filter (fun r => r.ISIN == some i)) = [] →
        filter_relevant_records ts brs = brs)) ∧
    filter_relevant_records ts brs ≠ [] ∧
    (∀ e : SimpleReconciliationEngine,
      (e.reconcile (some ts) brs).length = (filter_relevant_records ts brs).length) := by
  refine ⟨?_, ?_, filter_relevant_ne_nil ts brs h, ?_⟩
  · rintro (h1 | h1)
    · unfold filter_relevant_records
      rw [h1]
    · unfold filter_relevant_records
      rw [h1]
      simp
  · intro i hi hne
    unfold filter_relevant_records
    rw [hi]
    dsimp only
    rw [if_neg hne]
    constructor
    · intro hfne
      have hemp : (brs.filter (fun r => r.ISIN == some i)).isEmpty = false := by
        simpa [List.isEmpty_iff] using hfne
      rw [hemp]
      simp
    · intro hfnil
      rw [hfnil]
      simp
  · intro e
    unfold SimpleReconciliationEngine.reconcile
    dsimp only
    have h1 : brs.isEmpty = false := by simpa [List.isEmpty_iff] using h
    rw [h1]
    simp

/-- C5 witness: a stale identifier matching no record still yields a
nonempty candidate set and one result per booking record. -/
theorem c5_witness :
    filter_relevant_records ts_c5w [br_c5w] ≠ [] ∧
    (SimpleReconciliationEngine.reconcile ⟨none⟩ (some ts_c5w) [br_c5w]).length =
      (filter_relevant_records ts_c5w [br_c5w]).length :=
  ⟨(c5_amended_matcher_spec ts_c5w [br_c5w] (by decide)).2.2.1,
   (c5_amended_matcher_spec ts_c5w [br_c5w] (by decide)).2.2.2 ⟨none⟩⟩

/-- C6: a canonical field yields a FieldComparison (and hence enters the
match-percentage denominator) exactly when the term sheet value is present
(zero and the empty string are present), a booking attribute resolves via
the synonym list, and the resolved booking value is present; the
denominator equals the count of fields passing the three conditions. -/
theorem c6_field_counted_iff (ts : TermSheetData) (br : BookingRecord)
    (p : String × List String) (_hp : p ∈ field_name_mappings) :
    ((field_outcome ts br p).isSome = true ↔
      ((ts.getField p.1).isSome = true ∧
        ∃ bf, resolve_booking_field p.2 = some bf ∧ (br.getAttr bf).isSome = true)) ∧
    (reconcile_single_record ts br).comparisons.length =
      field_name_mappings.countP (fun q => (field_outcome ts br q).isSome) := by
  refine ⟨?_, length_filterMap_eq_countP _ _⟩
  unfold field_outcome
  cases hts : ts.getField p.1 with
  | none => simp
  | some v =>
    cases hbf : resolve_booking_field p.2 with
    | none => simp
    | some bf =>
      cases hv : br.getAttr bf with
      | none => simp [hv]
      | some w => simp [hv]

/-- C6 witness: a present-but-zero coupon rate is compared against a present
booking coupon. -/
theorem c6_witness :
    (field_outcome ts_c6 br_c6
      ("coupon_rate", ["Coupon", "CouponRate", "InterestRate", "Rate", "coupon_rate"])).isSome = true :=
  ((c6_field_counted_iff ts_c6 br_c6
      ("coupon_rate", ["Coupon", "CouponRate", "InterestRate", "Rate", "coupon_rate"])
      (by decide)).1).mpr ⟨rfl, "Coupon", rfl, rfl⟩

/-- C7: for the date canonical fields (maturity_date, issue_date), when both
values parse as dates the comparator matches exactly when the absolute day
difference is within DATE_TOLERANCE_DAYS, with similarity
max 0 (1 - days / 365); when either value fails to parse it falls back to
the exact-string comparator (so two equal unparseable strings match). -/
theorem c7_date_comparator (f : String)
    (hf : f ∈ ["maturity_date", "issue_date"]) (a b : Value) :
    (∀ da db, parse_date (pyStr a) = some da → parse_date (pyStr b) = some db →
      (((compare_field f (some a) (some b)).isMatch = true ↔
        dayDiff da db ≤ config.DATE_TOLERANCE_DAYS) ∧
      (compare_field f (some a) (some b)).similarity =
        max 0 (1 - (dayDiff da db : ℚ) / 365))) ∧
    ((parse_date (pyStr a) = none ∨ parse_date (pyStr b) = none) →
      compare_field f (some a) (some b) = compare_exact f a b) := by
  have hdisp : compare_field f (some a) (some b) = compare_date f a b := by
    fin_cases hf <;> rfl
  rw [hdisp]
  constructor
  · intro da db ha hb
    unfold compare_date
    rw [ha, hb]
    dsimp only
    constructor
    · rw [decide_eq_true_iff]
    · norm_num
  · intro hn
    unfold compare_date
    rcases hn with h | h
    · rw [h]
    · rw [h]
      cases parse_date (pyStr a) <;> rfl

/-- C7 witness: the same date in two formats matches with day difference
zero, and two identical unparseable strings match through the fallback. -/
theorem c7_witness :
    (compare_field "maturity_date" (some (Value.vStr "2024-03-15"))
      (some (Value.vStr "15/03/2024"))).isMatch = true ∧
    (compare_field "issue_date" (some (Value.vStr "not-a-date"))
      (some (Value.vStr "not-a-date"))).isMatch = true := by
  constructor
  · have h := ((c7_date_comparator "maturity_date" (by decide) (Value.vStr "2024-03-15")
      (Value.vStr "15/03/2024")).1 (2024, 3, 15) (2024, 3, 15) rfl rfl).1
    rw [h]
    decide
  · have h := (c7_date_comparator "issue_date" (by decide) (Value.vStr "not-a-date")
      (Value.vStr "not-a-date")).2 (Or.inl rfl)
    rw [h]
    decide

/-- C8: reconcile returns the empty result collection exactly when the term
sheet is absent or the booking collection is empty; in every other case at
least one result is produced. -/
theorem c8_reconcile_empty_iff (e : SimpleReconciliationEngine)
    (ts : Option TermSheetData) (brs : List BookingRecord) :
    e.reconcile ts brs = [] ↔ (ts = none ∨ brs = []) := by
  unfold SimpleReconciliationEngine.reconcile
  cases ts with
  | none => simp
  | some t =>
    dsimp only
    by_cases hb : brs = []
    · subst hb
      simp
    · have h1 : brs.isEmpty = false := by simpa [List.isEmpty_iff] using hb
      have h2 := filter_relevant_ne_nil t brs hb
      simp [h1, h2, hb]

/-- C9 counterexample: on the claim's own example the comparator matches
with similarity 0.9, but its note is "Partial text match", not the
lowercase "partial text match" stated by the claim. -/
theorem c9_counterexample :
    (compare_field "issuer" (some (Value.vStr "Genel Energy PLC"))
      (some (Value.vStr "Genel Energy"))).isMatch = true ∧
    (compare_field "issuer" (some (Value.vStr "Genel Energy PLC"))
      (some (Value.vStr "Genel Energy"))).similarity = 0.9 ∧
    (compare_field "issuer" (some (Value.vStr "Genel Energy PLC"))
      (some (Value.vStr "Genel Energy"))).notes ≠ some "partial text match" ∧
    (compare_field "issuer" (some (Value.vStr "Genel Energy PLC"))
      (some (Value.vStr "Genel Energy"))).notes = some "Partial text match" := by
  refine ⟨rfl, by decide, by decide, rfl⟩

/-- C9 amended: after trimming and lowercasing both sides, equality yields
match with similarity 1.0; otherwise a substring either way yields match
with similarity 0.9 and note "Partial text match" (the code capitalizes the
note, the only amendment to the claim); otherwise no match with similarity
0.0. -/
theorem c9_amended_text_comparator (f : String) (a b : Value) :
    ((norm_text a = norm_text b) →
      (compare_text f a b).isMatch = true ∧
      (compare_text f a b).similarity = 1.0 ∧
      (compare_text f a b).notes = none) ∧
    ((norm_text a ≠ norm_text b ∧
        (infixCheck (norm_text a) (norm_text b) ||
          infixCheck (norm_text b) (norm_text a)) = true) →
      (compare_text f a b).isMatch = true ∧
      (compare_text f a b).similarity = 0.9 ∧
      (compare_text f a b).notes = some "Partial text match") ∧
    ((norm_text a ≠ norm_text b ∧
        (infixCheck (norm_text a) (norm_text b) ||
          infixCheck (norm_text b) (norm_text a)) = false) →
      (compare_text f a b).isMatch = false ∧
      (compare_text f a b).similarity = 0.0) := by
  unfold compare_text
  dsimp only
  refine ⟨?_, ?_, ?_⟩
  · intro h
    have hb : (norm_text a == norm_text b) = true := beq_iff_eq.mpr h
    simp [hb]
  · rintro ⟨h1, h2⟩
    have hb : (norm_text a == norm_text b) = false := beq_eq_false_iff_ne.mpr h1
    simp [hb, h2]
  · rintro ⟨h1, h2⟩
    have hb : (norm_text a == norm_text b) = false := beq_eq_false_iff_ne.mpr h1
    simp [hb, h2]

/-- C9 witness: the spec example hits the substring branch with the
capitalized note. -/
theorem c9_witness :
    (compare_text "issuer" (Value.vStr "Genel Energy PLC") (Value.vStr "Genel Energy")).isMatch = true ∧
    (compare_text "issuer" (Value.vStr "Genel Energy PLC") (Value.vStr "Genel Energy")).notes =
      some "Partial text match" := by
  have h := (c9_amended_text_comparator "issuer" (Value.vStr "Genel Energy PLC")
    (Value.vStr "Genel Energy")).2.1 ⟨by decide, by decide⟩
  exact ⟨h.1, h.2.2⟩

/-- C10: no result of reconcile ever contains a FieldComparison for
security_type, seniority, tenor, payment_frequency or day_count_convention:
the first three are not keys of the hard-coded mapping and the synonym
lists of the last two resolve to no declared BookingRecord attribute. -/
theorem c10_never_compared (e : SimpleReconciliationEngine)
    (ts : Option TermSheetData) (brs : List BookingRecord) :
    (e.reconcile ts brs).all (fun r => r.comparisons.all (fun c =>
      !(["security_type", "seniority", "tenor", "payment_frequency",
         "day_count_convention"].contains c.field_name))) = true := by
  rw [List.all_eq_true]
  intro r hr
  rw [List.all_eq_true]
  intro c hc
  obtain ⟨t, b, -, hrr⟩ := mem_reconcile e ts brs r hr
  subst hrr
  obtain ⟨p, hp, hout, hname⟩ := comparisons_from_mapping t b c hc
  simp only [field_name_mappings, List.mem_cons, List.not_mem_nil, or_false] at hp
  rcases hp with h|h|h|h|h|h|h|h|h|h|h|h <;> subst h <;> try (rw [hname]; rfl)
  · rw [field_outcome_unresolved t b "payment_frequency"
      ["InterestPaymentFrequency", "PaymentFrequency", "Frequency", "payment_frequency"] rfl] at hout
    exact Option.noConfusion hout
  · rw [field_outcome_unresolved t b "day_count_convention"
      ["DayCountFraction", "DayCount", "DayCountConvention", "day_count_convention"] rfl] at hout
    exact Option.noConfusion hout

end
